import Mathlib

/-!
Verification of the youtube-downloader repository.

Shallow embedding of the three Python source files:
  - `youtube_downloader.py`   (command-line downloader)
  - `youtube_downloader_gui.py` (Tkinter GUI downloader)
  - `create_app.py`           (macOS bundle packaging script)

External behaviour (the `yt_dlp` library raising or not on a given URL,
background-thread outcomes, the filesystem) is modelled by explicit
oracle parameters and effect traces; every definition follows the
corresponding Python function line by line.
-/

namespace YtDl

/-! ## CLI: option structures (`youtube_downloader.py`) -/

/-- One entry of the `postprocessors` list in the yt-dlp options dict
(source: `download_video`, lines 112-116). -/
structure PostProcessor where
  key : String
  preferredcodec : String
  preferredquality : String
deriving DecidableEq, Repr

/-- The dict returned by `get_quality_options` (lines 76-79): keys
`format` and `merge_output_format`. -/
structure QualityOpts where
  format : String
  merge_output_format : String
deriving DecidableEq, Repr

/-- `get_quality_options(quality)` of `youtube_downloader.py` lines 65-79:
chooses the yt-dlp format expression from the quality string; any string
other than the three capped tiers falls into the `else  # best` branch. -/
def get_quality_options (quality : String) : QualityOpts :=
  let format_str :=
    if quality = "1080p" then "bestvideo[height<=1080]+bestaudio/best[height<=1080]"
    else if quality = "1440p" then "bestvideo[height<=1440]+bestaudio/best[height<=1440]"
    else if quality = "2160p" then "bestvideo[height<=2160]+bestaudio/best[height<=2160]"
    else "bestvideo+bestaudio/best"
  { format := format_str, merge_output_format := "mp4" }

/-- The yt-dlp options dict assembled by CLI `download_video`
(lines 89-120).  Keys that are present only on some paths
(`ratelimit`, `format`, `merge_output_format`) are `Option`s;
`postprocessors` is absent ⇔ the empty list. -/
structure YdlOpts where
  outtmpl : String
  ignoreerrors : Bool
  noplaylist : Bool
  quiet : Bool
  no_warnings : Bool
  progress : Bool
  concurrent_fragment_downloads : Nat
  retries : Nat
  fragment_retries : Nat
  skip_unavailable_fragments : Bool
  buffersize : Nat
  http_chunk_size : Nat
  ratelimit : Option String
  format : Option String
  merge_output_format : Option String
  postprocessors : List PostProcessor
deriving DecidableEq, Repr

/-- Path join `os.path.join(a, b)` for the simple relative-component case
used throughout the sources. -/
def joinPath (a b : String) : String := a ++ "/" ++ b

/-- The options construction inside CLI `download_video`
(`youtube_downloader.py` lines 85-120): base dict with speed tuning,
then `ratelimit` if a rate limit was given, then either the audio-only
update (format `bestaudio/best` plus the `FFmpegExtractAudio`
post-processor) or the `get_quality_options` update. -/
def buildCliOpts (output_dir quality : String) (audio_only : Bool)
    (threads : Nat) (limit_rate : Option String) : YdlOpts :=
  let base : YdlOpts :=
    { outtmpl := joinPath output_dir "%(title)s.%(ext)s"
      ignoreerrors := true
      noplaylist := true
      quiet := false
      no_warnings := false
      progress := true
      concurrent_fragment_downloads := threads
      retries := 10
      fragment_retries := 10
      skip_unavailable_fragments := true
      buffersize := 1024 * 1024 * 16
      http_chunk_size := 1024 * 1024 * 10
      ratelimit := none
      format := none
      merge_output_format := none
      postprocessors := [] }
  let base := { base with ratelimit := limit_rate }
  if audio_only then
    { base with
        format := some "bestaudio/best"
        postprocessors := [{ key := "FFmpegExtractAudio"
                             preferredcodec := "mp3"
                             preferredquality := "192" }] }
  else
    let q := get_quality_options quality
    { base with
        format := some q.format
        merge_output_format := some q.merge_output_format }

/-! ## CLI: run semantics

The only external call is `ydl.download([url])`; whether it raises is
modelled by an oracle `raisesOn : String → Bool`. -/

/-- Outcome of a CLI operation: normal return, or process termination
via `sys.exit` with the given code. -/
inductive CliOutcome where
  | success
  | exit (code : Nat)
deriving DecidableEq, Repr

/-- Control flow of CLI `download_video` (lines 129-138): the library
call is wrapped in `try`; on any exception the error is printed and
`sys.exit(1)` runs, otherwise the function returns normally. -/
def download_video_run (raisesOn : String → Bool) (url : String) : CliOutcome :=
  if raisesOn url then .exit 1 else .success

/-- Control flow of `list_available_formats` (lines 141-153): identical
try/except shape, `sys.exit(1)` on any exception. -/
def list_available_formats_run (raisesOn : String → Bool) (url : String) : CliOutcome :=
  if raisesOn url then .exit 1 else .success

/-- The sequential branch of `download_multiple_videos` (lines 190-198):
`for url in urls: download_video(...)` with no try/except around the
call.  Since `download_video` terminates the process on failure, the
loop stops at the first failing URL.  Returns the list of URLs actually
passed to `download_video`, paired with the outcome. -/
def download_multiple_sequential (raisesOn : String → Bool) :
    List String → List String × CliOutcome
  | [] => ([], .success)
  | u :: rest =>
    match download_video_run raisesOn u with
    | .success =>
      let (att, out) := download_multiple_sequential raisesOn rest
      (u :: att, out)
    | .exit c => ([u], .exit c)

/-- Outcome of `download_multiple_videos`: normal return, `sys.exit`,
or an exception that no handler in the function catches (it propagates
to the caller and crashes the process with a traceback). -/
inductive MultiOutcome where
  | success
  | exit (code : Nat)
  | unhandled (err : String)
deriving DecidableEq, Repr

/-- The two kinds of Python value the name `concurrent` can denote at
line 172: a boolean (the function parameter) or a module object
identified by its qualified name. -/
inductive PyVal where
  | pybool (b : Bool)
  | pymodule (name : String)
deriving DecidableEq, Repr

/-- Python attribute access `x.attr` for those values: a module exposes
its attributes as qualified names; a bool has no `futures` attribute,
so the access raises `AttributeError`. -/
def getattr : PyVal → String → Except String PyVal
  | .pybool _, _ => .error "AttributeError"
  | .pymodule m, attr => .ok (.pymodule (m ++ "." ++ attr))

/-- The `ThreadPoolExecutor` of line 172 together with the URLs
submitted to it (one `download_video` task per URL, lines 174-178). -/
structure ThreadPool where
  max_workers : Nat
  submitted : List String
deriving DecidableEq, Repr

/-- The concurrent branch of `download_multiple_videos`
(lines 167-189), parametrised by the value the name `concurrent`
denotes when line 172 evaluates `concurrent.futures`.  If that
attribute access raises, nothing in the function catches the
exception.  Otherwise a pool with `max_workers = min(len(urls), 4)` is
created and one `download_video` task is submitted per URL; the
`as_completed` loop calls `future.result()` inside
`try/except Exception`, and a failing worker has stored the
`SystemExit(1)` raised by `download_video`'s `sys.exit(1)` — re-raised
by `result()`, it is not an `Exception`, escapes the handler and
terminates the process with exit status 1.  Returns the pool (if one
was constructed), the URLs passed to `download_video`, and the
outcome. -/
def concurrent_branch (raisesOn : String → Bool) (urls : List String)
    (concurrentName : PyVal) : Option ThreadPool × List String × MultiOutcome :=
  match getattr concurrentName "futures" with
  | .error e => (none, [], .unhandled e)
  | .ok _ =>
    let pool : ThreadPool := { max_workers := min urls.length 4, submitted := urls }
    if urls.any raisesOn then (some pool, urls, .exit 1)
    else (some pool, urls, .success)

/-- `download_multiple_videos` (lines 156-198).  In the source the
function parameter `concurrent: bool` shadows the module imported by
`import concurrent.futures` (line 13), so on the concurrent branch the
name `concurrent` denotes the boolean flag — `getattr` on a bool — and
the branch dies with `AttributeError` before any executor is created
or any URL is submitted.  The sequential branch iterates
`download_video` over the URLs.  Returns the constructed pool (if
any), the URLs passed to `download_video`, and the outcome. -/
def download_multiple_videos (raisesOn : String → Bool) (urls : List String)
    (concurrentFlag : Bool) : Option ThreadPool × List String × MultiOutcome :=
  if concurrentFlag then
    concurrent_branch raisesOn urls (.pybool concurrentFlag)
  else
    match download_multiple_sequential raisesOn urls with
    | (att, .success) => (none, att, .success)
    | (att, .exit c) => (none, att, .exit c)

/-! ## GUI: `youtube_downloader_gui.py` -/

/-- Boolean substring test on character lists, the semantics of the
Python `in` operator on strings. -/
def isSubListOf (needle : List Char) : List Char → Bool
  | [] => needle.isEmpty
  | c :: rest => needle.isPrefixOf (c :: rest) || isSubListOf needle rest

/-- `needle in hay` for Python strings. -/
def strContains (hay needle : String) : Bool :=
  isSubListOf needle.data hay.data

/-- Python `str.strip()`: drop whitespace from both ends. -/
def pyStrip (s : String) : String :=
  ⟨((s.data.dropWhile Char.isWhitespace).reverse.dropWhile
      Char.isWhitespace).reverse⟩

/-- Python `str.lower()`. -/
def pyLower (s : String) : String :=
  ⟨s.data.map Char.toLower⟩

/-- The allow-listed domain substrings used by `start_download`
(lines 449-452), `on_url_change` and `paste_url`. -/
def supportedDomains : List String :=
  ["youtube.com", "youtu.be", "facebook.com", "fb.watch", "instagram.com",
   "twitter.com", "tiktok.com", "vimeo.com", "dailymotion.com"]

/-- `any(domain in url.lower() for domain in [...])`. -/
def domainAllowed (url : String) : Bool :=
  supportedDomains.any (fun d => strContains (pyLower url) d)

/-- Tkinter widget state: `tk.NORMAL` or `tk.DISABLED`. -/
inductive WState where
  | normal
  | disabled
deriving DecidableEq, Repr

/-- The arguments handed to the background `threading.Thread`
spawned by `start_download` (lines 468-472). -/
structure DownloadTask where
  url : String
  outputDir : String
  threads : Nat
deriving DecidableEq, Repr

/-- The controller state of `VideoDownloaderGUI`: the instance fields
initialised in `__init__` (lines 157-162), the widget states the
claims touch, and modelled effect logs (`warnings`/`errors` record
`messagebox` calls, `interrupts` counts `self.ydl.interrupt()` calls). -/
structure GuiState where
  urlEntry : String
  outputVar : String
  download_button : WState
  cancel_button : WState
  play_button : WState
  progress_var : Rat
  status_var : String
  log_lines : List String
  is_downloading : Bool
  ydl : Option Unit
  last_downloaded_file : Option String
  download_thread : Option DownloadTask
  warnings : List String
  errors : List String
  interrupts : Nat
deriving DecidableEq, Repr

/-- The state after `__init__`: download button enabled, cancel and play
disabled (lines 141, 152), progress 0.0 (line 104), status
"Ready to download" (line 115), `is_downloading = False`,
`ydl = None`, `last_downloaded_file = None`, `download_thread = None`
(lines 157-161); output defaults to `~/Downloads` (line 95). -/
def initState (home : String) : GuiState :=
  { urlEntry := ""
    outputVar := joinPath home "Downloads"
    download_button := .normal
    cancel_button := .disabled
    play_button := .disabled
    progress_var := 0
    status_var := "Ready to download"
    log_lines := []
    is_downloading := false
    ydl := none
    last_downloaded_file := none
    download_thread := none
    warnings := []
    errors := []
    interrupts := 0 }

/-- `start_download` (lines 442-472): strips the URL field; warns and
returns if it is empty or contains no allow-listed domain substring;
otherwise disables start, enables cancel, disables play, resets
progress and status, clears the log, sets `is_downloading`, and spawns
the background thread on `download_video` with a fixed thread count
of 8. -/
def start_download (s : GuiState) : GuiState :=
  let url := pyStrip s.urlEntry
  if url = "" then
    { s with warnings := s.warnings ++ ["Please enter a video URL"] }
  else if domainAllowed url then
    { s with
        download_button := .disabled
        cancel_button := .normal
        play_button := .disabled
        progress_var := 0
        status_var := "Starting download..."
        log_lines := []
        is_downloading := true
        download_thread := some { url := url, outputDir := s.outputVar, threads := 8 } }
  else
    { s with warnings := s.warnings ++ ["Please enter a supported video URL"] }

/-- `cancel_download` (lines 474-482): guarded by
`if self.is_downloading and self.ydl:` — when `is_downloading` is false
or `self.ydl` is `None` (falsy) the body is skipped entirely; otherwise
it signals `interrupt()`, updates status and log, re-enables start,
disables cancel and clears `is_downloading`.  Note that `self.ydl` is
assigned only in `__init__` (to `None`) and nowhere else in the file. -/
def cancel_download (s : GuiState) : GuiState :=
  match s.is_downloading, s.ydl with
  | true, some _ =>
    { s with
        interrupts := s.interrupts + 1
        status_var := "Download cancelled"
        log_lines := s.log_lines ++ ["Download cancelled by user"]
        download_button := .normal
        cancel_button := .disabled
        is_downloading := false }
  | _, _ => s

/-- The yt-dlp options dict assembled by the GUI `download_video`
(lines 407-421).  `progress_hooks` holds the single
`download_progress_hook`, modelled as a hook count. -/
structure GuiYdlOpts where
  outtmpl : String
  format : String
  ignoreerrors : Bool
  noplaylist : Bool
  quiet : Bool
  no_warnings : Bool
  progress_hooks : Nat
  concurrent_fragment_downloads : Nat
  retries : Nat
  fragment_retries : Nat
  skip_unavailable_fragments : Bool
  buffersize : Nat
  http_chunk_size : Nat
deriving DecidableEq, Repr

/-- The options construction in GUI `download_video` (lines 407-421). -/
def buildGuiOpts (output_dir : String) (threads : Nat) : GuiYdlOpts :=
  { outtmpl := joinPath output_dir "%(title)s.%(ext)s"
    format := "bestvideo+bestaudio/best"
    ignoreerrors := true
    noplaylist := true
    quiet := true
    no_warnings := false
    progress_hooks := 1
    concurrent_fragment_downloads := threads
    retries := 10
    fragment_retries := 10
    skip_unavailable_fragments := true
    buffersize := 1024 * 1024 * 16
    http_chunk_size := 1024 * 1024 * 10 }

/-- GUI `download_video` (lines 397-440), run to completion in the
background thread.  The library call either returns an info dict —
`prepare_filename` then yields the written path — or raises; this is
the `outcome` oracle (`.ok path` / `.error message`).  The `try` body
logs, builds the options and on success stores the file path, enables
play and reports completion; the `except` branch shows a modal error
and logs; the `finally` branch always clears `is_downloading`,
re-enables start and disables cancel.  Returns the final state and the
options dict passed to `yt_dlp.YoutubeDL`. -/
def download_video_gui (s : GuiState) (url output_dir : String) (threads : Nat)
    (outcome : Except String String) : GuiState × GuiYdlOpts :=
  let s := { s with log_lines := s.log_lines ++
    ["Starting download: " ++ url, "Output directory: " ++ output_dir] }
  let opts := buildGuiOpts output_dir threads
  let s :=
    match outcome with
    | .ok fname =>
      { s with
          last_downloaded_file := some fname
          play_button := .normal
          status_var := "Download completed successfully!"
          log_lines := s.log_lines ++ ["Download completed successfully!"] }
    | .error e =>
      { s with
          errors := s.errors ++ ["Download failed: " ++ e]
          log_lines := s.log_lines ++ ["Error: " ++ e] }
  ({ s with
      is_downloading := false
      download_button := .normal
      cancel_button := .disabled }, opts)

/-! ## GUI: quality-label heuristic of `get_video_info` (lines 252-350) -/

/-- The per-format fields read by the scan loop: `f.get('format_note','')`,
`f.get('height', 0)`, `f.get('fps', 0)`, `f.get('vcodec','none')`,
`f.get('acodec','none')`. -/
structure MediaFormat where
  format_note : String
  height : Nat
  fps : Nat
  vcodec : String
  acodec : String
deriving DecidableEq, Repr

/-- The accumulator variables of the first-pass loop
(lines 253-258). -/
structure ScanState where
  has_video : Bool
  has_audio : Bool
  max_height : Nat
  max_fps : Nat
  is_hdr : Bool
  dynamic_range : String
deriving DecidableEq, Repr

/-- One iteration of the first-pass loop over `formats`
(lines 265-294): video codecs update the HDR flag (substrings
`vp9.2`/`hdr`/`av01` of the lowercased vcodec), the dynamic range
(`HDR` / `Dolby Vision` substrings of the format note) and the
height/fps maxima; audio codecs set `has_audio`. -/
def scanStep (st : ScanState) (f : MediaFormat) : ScanState :=
  let st :=
    if f.vcodec ≠ "none" then
      { st with
          has_video := true
          is_hdr := st.is_hdr ||
            ["vp9.2", "hdr", "av01"].any (fun x => strContains (pyLower f.vcodec) x)
          dynamic_range :=
            if strContains f.format_note "HDR" then "HDR"
            else if strContains f.format_note "Dolby Vision" then "Dolby Vision"
            else st.dynamic_range
          max_height := if f.height > st.max_height then f.height else st.max_height
          max_fps := if f.fps > st.max_fps then f.fps else st.max_fps }
    else st
  if f.acodec ≠ "none" then { st with has_audio := true } else st

/-- The whole first pass (lines 253-294), starting from
`has_video = has_audio = False`, `max_height = max_fps = 0`,
`is_hdr = False`, `dynamic_range = ""`. -/
def scanFormats (fs : List MediaFormat) : ScanState :=
  fs.foldl scanStep
    { has_video := false, has_audio := false, max_height := 0, max_fps := 0,
      is_hdr := false, dynamic_range := "" }

/-- The threshold chain used in the Video+Audio branch
(lines 301-312); the `>= 1080` case and the final `else` both render
`f"{max_height}p"`, exactly as in the source. -/
def qualityLabelVA (max_height : Nat) : String :=
  if max_height ≥ 15000 then "16K"
  else if max_height ≥ 8000 then "8K"
  else if max_height ≥ 4000 then "4K"
  else if max_height ≥ 2000 then "2K"
  else if max_height ≥ 1080 then toString max_height ++ "p"
  else toString max_height ++ "p"

/-- The threshold chain used in the Video-Only branch
(lines 326-335). -/
def qualityLabelVO (max_height : Nat) : String :=
  if max_height ≥ 15000 then "16K"
  else if max_height ≥ 8000 then "8K"
  else if max_height ≥ 4000 then "4K"
  else if max_height ≥ 2000 then "2K"
  else toString max_height ++ "p"

/-- Appending the dynamic-range / HDR indicator to a quality label
(lines 314-318 and 337-340). -/
def addDynamicRange (label : String) (dynamic_range : String) (is_hdr : Bool) : String :=
  if dynamic_range ≠ "" then label ++ " " ++ dynamic_range
  else if is_hdr then label ++ " HDR"
  else label

/-- The `format_text` computed from the scanned formats
(lines 296-348): quality label, dynamic-range suffix and FPS inside the
Video+Audio / Video-Only / Audio-Only / unknown wrappers. -/
def format_text_of (fs : List MediaFormat) : String :=
  let st := scanFormats fs
  if st.has_video && st.has_audio then
    let ql := addDynamicRange (qualityLabelVA st.max_height) st.dynamic_range st.is_hdr
    let fps_text := " " ++ toString st.max_fps ++ "FPS"
    "🎥+🔊 Video+Audio (" ++ ql ++ fps_text ++ ")"
  else if st.has_video then
    let ql := addDynamicRange (qualityLabelVO st.max_height) st.dynamic_range st.is_hdr
    let fps_text := " " ++ toString st.max_fps ++ "FPS"
    "🎥 Video Only (" ++ ql ++ fps_text ++ ")"
  else if st.has_audio then
    "🔊 Audio Only"
  else
    "Unknown Format"

/-! ## Packaging: `create_app.py`

`create_macos_app` is pure orchestration of filesystem and subprocess
effects; it is embedded as the list of effects it performs, in program
order, parametrised by the environment values it reads
(`os.path.expanduser("~")`, `os.path.dirname(os.path.abspath(__file__))`,
and the `tempfile.TemporaryDirectory()` path). -/

/-- A value of the `Info.plist` dictionary. -/
inductive PValue where
  | s (v : String)
  | b (v : Bool)
deriving DecidableEq, Repr

/-- File contents: launcher script text, a property list, or binary
data produced by an external tool or a copy. -/
inductive FData where
  | text (v : String)
  | plist (entries : List (String × PValue))
  | binary
deriving DecidableEq, Repr

/-- One filesystem / subprocess effect performed by the script. -/
inductive Effect where
  | makedirs (path : String) (exist_ok : Bool)
  | write (path : String) (data : FData)
  | chmod (path : String) (mode : Nat)
  | copy (src dst : String)
  | run (cmd : List String)
deriving DecidableEq, Repr

/-- The launcher script text written at `Contents/MacOS/launcher`
(lines 31-36). -/
def launcherScript (current_dir : String) : String :=
  "#!/bin/bash\ncd \"" ++ current_dir ++ "\"\nsource venv/bin/activate\npython youtube_downloader_gui.py\n"

/-- The `info_plist` dict (lines 42-51). -/
def infoPlist : List (String × PValue) :=
  [("CFBundleName", .s "YouTube Downloader"),
   ("CFBundleDisplayName", .s "YouTube Downloader"),
   ("CFBundleIdentifier", .s "com.youtubedownloader.app"),
   ("CFBundleVersion", .s "1.0"),
   ("CFBundleExecutable", .s "launcher"),
   ("CFBundleIconFile", .s "AppIcon"),
   ("CFBundlePackageType", .s "APPL"),
   ("NSHighResolutionCapable", .b true)]

/-- The `sips` invocations of the icon loop (lines 69-89): for each
size a PNG conversion, plus a `@2x` variant for sizes below 512. -/
def sipsOps (iconset_path : String) : List Effect :=
  [16, 32, 64, 128, 256, 512].flatMap (fun size =>
    [Effect.run ["sips", "-s", "format", "png",
        "-z", toString size, toString size,
        joinPath iconset_path "icon_512x512.jpg",
        "--out", joinPath iconset_path
          ("icon_" ++ toString size ++ "x" ++ toString size ++ ".png")]] ++
    (if size < 512 then
      [Effect.run ["sips", "-s", "format", "png",
        "-z", toString (size * 2), toString (size * 2),
        joinPath iconset_path "icon_512x512.jpg",
        "--out", joinPath iconset_path
          ("icon_" ++ toString size ++ "x" ++ toString size ++ "@2x.png")]]
     else []))

/-- `create_macos_app` (lines 14-95) as its effect trace: create the
`Contents/MacOS` and `Contents/Resources` directories with
`exist_ok=True`, write and chmod the launcher, dump `Info.plist`,
build the temporary iconset (directory, copied source image, `sips`
conversions) and finally invoke `iconutil` with the bundle icon path
as its `-o` output. -/
def create_macos_app (home current_dir tmp_dir : String) : List Effect :=
  let app_path := joinPath home "Desktop/YouTube Downloader.app"
  let contents_path := joinPath app_path "Contents"
  let macos_path := joinPath contents_path "MacOS"
  let resources_path := joinPath contents_path "Resources"
  let launcher_path := joinPath macos_path "launcher"
  let icon_path := joinPath resources_path "AppIcon.icns"
  let iconset_path := joinPath tmp_dir "AppIcon.iconset"
  [Effect.makedirs macos_path true,
   Effect.makedirs resources_path true,
   Effect.write launcher_path (.text (launcherScript current_dir)),
   Effect.chmod launcher_path 493,
   Effect.write (joinPath contents_path "Info.plist") (.plist infoPlist),
   Effect.makedirs iconset_path true,
   Effect.copy (joinPath current_dir "logo.JPG") (joinPath iconset_path "icon_512x512.jpg")] ++
  sipsOps iconset_path ++
  [Effect.run ["iconutil", "-c", "icns", iconset_path, "-o", icon_path]]

/-! ### A small filesystem interpreter for the effect trace -/

/-- Modelled filesystem: existing directories, file contents, and file
modes set by `chmod`. -/
structure FS where
  dirs : List String
  files : List (String × FData)
  modes : List (String × Nat)
deriving DecidableEq, Repr

/-- The empty filesystem (no prior bundle directory). -/
def emptyFS : FS := { dirs := [], files := [], modes := [] }

/-- Insert-or-overwrite in an association list keyed by path. -/
def setAssoc {α : Type} (m : List (String × α)) (k : String) (v : α) :
    List (String × α) :=
  if m.any (fun p => p.1 == k) then
    m.map (fun p => if p.1 == k then (k, v) else p)
  else m ++ [(k, v)]

/-- Lookup in an association list keyed by a string. -/
def assocFind {α : Type} (m : List (String × α)) (k : String) : Option α :=
  (m.find? (fun p => p.1 == k)).map (fun p => p.2)

/-- The command-line argument following a given flag, if any. -/
def argAfter (flag : String) : List String → Option String
  | [] => none
  | [_] => none
  | x :: y :: rest => if x == flag then some y else argAfter flag (y :: rest)

/-- Apply one effect.  `os.makedirs` raises `FileExistsError` on an
existing directory unless `exist_ok=True`; writes overwrite; `chmod`
records the mode; a copy materialises the destination.  The two
external tools are modelled by their documented output effect: `sips`
writes the file named by `--out`, `iconutil` the file named by `-o`. -/
def applyEffect (fs : FS) (e : Effect) : Except String FS :=
  match e with
  | .makedirs p ok =>
    if fs.dirs.contains p then
      if ok then .ok fs else .error "FileExistsError"
    else .ok { fs with dirs := fs.dirs ++ [p] }
  | .write p d => .ok { fs with files := setAssoc fs.files p d }
  | .chmod p m => .ok { fs with modes := setAssoc fs.modes p m }
  | .copy _ dst => .ok { fs with files := setAssoc fs.files dst .binary }
  | .run cmd =>
    match cmd with
    | "sips" :: rest =>
      match argAfter "--out" rest with
      | some out => .ok { fs with files := setAssoc fs.files out .binary }
      | none => .ok fs
    | "iconutil" :: rest =>
      match argAfter "-o" rest with
      | some out => .ok { fs with files := setAssoc fs.files out .binary }
      | none => .ok fs
    | _ => .ok fs

/-- Run an effect trace, stopping at the first raised error. -/
def runEffects (fs : FS) : List Effect → Except String FS
  | [] => .ok fs
  | e :: rest =>
    match applyEffect fs e with
    | .ok fs2 => runEffects fs2 rest
    | .error msg => .error msg

/-- The plist entries of the file stored at `p`, or `[]` if no plist is
there. -/
def plistAt (fs : FS) (p : String) : List (String × PValue) :=
  match assocFind fs.files p with
  | some (.plist l) => l
  | _ => []

/-- A concrete invocation environment for the packaging script. -/
def demoOps : List Effect :=
  create_macos_app "/Users/demo" "/repo" "/tmp/tdir"

/-- The filesystem produced by running the packaging trace on an empty
filesystem (defaulting to the empty filesystem on error). -/
def demoFS : FS :=
  match runEffects emptyFS demoOps with
  | .ok fs => fs
  | .error _ => emptyFS

end YtDl

/-! # Claim theorems -/

open YtDl

/-- Claim C1: the quality-to-options mapping yields
`bestvideo[height<=H]+bestaudio/best[height<=H]` with
`merge_output_format` `mp4` for the capped tiers, `bestvideo+bestaudio/best`
with `mp4` for `best`, and the audio-only path instead sets format
`bestaudio/best` with a single `FFmpegExtractAudio` post-processor
(codec `mp3`, quality `192`). -/
theorem C1_quality_options_mapping :
    get_quality_options "1080p" =
      { format := "bestvideo[height<=1080]+bestaudio/best[height<=1080]",
        merge_output_format := "mp4" } ∧
    get_quality_options "1440p" =
      { format := "bestvideo[height<=1440]+bestaudio/best[height<=1440]",
        merge_output_format := "mp4" } ∧
    get_quality_options "2160p" =
      { format := "bestvideo[height<=2160]+bestaudio/best[height<=2160]",
        merge_output_format := "mp4" } ∧
    get_quality_options "best" =
      { format := "bestvideo+bestaudio/best", merge_output_format := "mp4" } ∧
    ∀ (o q : String) (t : Nat) (lr : Option String),
      (buildCliOpts o q true t lr).format = some "bestaudio/best" ∧
      (buildCliOpts o q true t lr).postprocessors =
        [{ key := "FFmpegExtractAudio", preferredcodec := "mp3",
           preferredquality := "192" }] ∧
      (buildCliOpts o "1080p" false t lr).format =
        some "bestvideo[height<=1080]+bestaudio/best[height<=1080]" ∧
      (buildCliOpts o "1440p" false t lr).format =
        some "bestvideo[height<=1440]+bestaudio/best[height<=1440]" ∧
      (buildCliOpts o "2160p" false t lr).format =
        some "bestvideo[height<=2160]+bestaudio/best[height<=2160]" ∧
      (buildCliOpts o "best" false t lr).format =
        some "bestvideo+bestaudio/best" ∧
      (buildCliOpts o "best" false t lr).merge_output_format = some "mp4" := by
  refine ⟨by decide, by decide, by decide, by decide, ?_⟩
  intro o q t lr
  refine ⟨rfl, rfl, ?_, ?_, ?_, ?_, ?_⟩ <;> rfl

/-- Claim C6: for the CLI single-download and list-formats operations,
a library exception leads to process exit with status 1, and absence of
an exception leads to normal completion (no error exit). -/
theorem C6_cli_error_exit (raisesOn : String → Bool) (url : String) :
    (download_video_run raisesOn url = .exit 1 ↔ raisesOn url = true) ∧
    (download_video_run raisesOn url = .success ↔ raisesOn url = false) ∧
    (list_available_formats_run raisesOn url = .exit 1 ↔ raisesOn url = true) ∧
    (list_available_formats_run raisesOn url = .success ↔ raisesOn url = false) := by
  unfold download_video_run list_available_formats_run
  rcases h : raisesOn url <;> simp [h]

/-- Claim C2: evaluation of the code at a failing input.  With two URLs
and concurrent mode requested, the name `concurrent` denotes the
boolean parameter, so the `concurrent.futures` attribute access raises
an unhandled `AttributeError`: no worker pool is constructed and no
URL is submitted.  Had the name denoted the imported module — the
evident intent — the very same branch would have constructed the pool
with `max_workers = min(2, 4)`, submitted both URLs, and completed
without an unhandled error. -/
theorem C2_concurrent_mode_crashes :
    download_multiple_videos (fun _ => false)
        ["https://youtu.be/a", "https://youtu.be/b"] true =
      (none, [], .unhandled "AttributeError") ∧
    (concurrent_branch (fun _ => false)
        ["https://youtu.be/a", "https://youtu.be/b"]
        (.pymodule "concurrent")).1 =
      some { max_workers := min 2 4,
             submitted := ["https://youtu.be/a", "https://youtu.be/b"] } ∧
    (concurrent_branch (fun _ => false)
        ["https://youtu.be/a", "https://youtu.be/b"]
        (.pymodule "concurrent")).2.2 = .success := by
  exact ⟨rfl, rfl, rfl⟩

/-- Claim C3 counterexample: in sequential mode with a three-URL batch
whose second download fails, the process exits with status 1 after the
second URL and the third URL is never passed to `download_video`,
contradicting the claim that every later URL in the list is still
attempted. -/
theorem C3_sequential_abort_counterexample :
    download_multiple_videos (fun u => u == "https://youtu.be/bad")
        ["https://youtu.be/good", "https://youtu.be/bad",
         "https://youtu.be/good2"] false =
      (none, ["https://youtu.be/good", "https://youtu.be/bad"], .exit 1) ∧
    "https://youtu.be/good2" ∉
      (download_multiple_videos (fun u => u == "https://youtu.be/bad")
        ["https://youtu.be/good", "https://youtu.be/bad",
         "https://youtu.be/good2"] false).2.1 := by
  exact ⟨rfl, by decide⟩

/-- The sequential loop stops at the first failing URL, wherever it
sits in the batch: the URLs before it all run, the failing one runs
and exits the process with status 1, and the URLs after it are never
attempted. -/
theorem seq_stops_at_first_failure (raisesOn : String → Bool) :
    ∀ (pre : List String) (u : String) (post : List String),
      (∀ v ∈ pre, raisesOn v = false) → raisesOn u = true →
      download_multiple_sequential raisesOn (pre ++ u :: post) =
        (pre ++ [u], .exit 1) := by
  intro pre
  induction pre with
  | nil =>
    intro u post _ hu
    simp [download_multiple_sequential, download_video_run, hu]
  | cons v pre ih =>
    intro u post h hu
    have hv : raisesOn v = false := h v (by simp)
    have hrest := ih u post (fun w hw => h w (by simp [hw])) hu
    simp [download_multiple_sequential, download_video_run, hv, hrest]

/-- Claim C3 (amended): a failure in one URL's download is not
contained within the batch.  In sequential mode, wherever the first
failing URL sits, the failing `download_video` call terminates the
process with exit status 1, so exactly the URLs up to and including it
are attempted and no URL after it is; in concurrent mode the branch
raises an unhandled `AttributeError` before any URL is submitted, so
no download is attempted at all. -/
theorem C3_batch_failure_behaviour (raisesOn : String → Bool) :
    (∀ (pre : List String) (u : String) (post : List String),
      (∀ v ∈ pre, raisesOn v = false) → raisesOn u = true →
      download_multiple_videos raisesOn (pre ++ u :: post) false =
        (none, pre ++ [u], .exit 1)) ∧
    (∀ urls : List String,
      download_multiple_videos raisesOn urls true =
        (none, [], .unhandled "AttributeError")) := by
  constructor
  · intro pre u post h hu
    simp [download_multiple_videos,
      seq_stops_at_first_failure raisesOn pre u post h hu]
  · intro urls
    simp [download_multiple_videos, concurrent_branch, getattr]

/-- Witness for C3's amended theorem at a concrete batch: a failure at
the second of three URLs stops the sequential run there with exit
status 1, leaving the third URL unattempted. -/
theorem C3_batch_failure_behaviour_witness :
    download_multiple_videos (fun u => u == "https://youtu.be/x")
        ["https://youtu.be/ok", "https://youtu.be/x",
         "https://youtu.be/after"] false =
      (none, ["https://youtu.be/ok", "https://youtu.be/x"], .exit 1) :=
  (C3_batch_failure_behaviour (fun u => u == "https://youtu.be/x")).1
    ["https://youtu.be/ok"] "https://youtu.be/x" ["https://youtu.be/after"]
    (by decide) (by decide)

/-- Claim C4 counterexample: starting a download from the freshly
initialised GUI yields a state with `is_downloading = true` but
`ydl = None` (the field is never assigned outside `__init__`), and on
that active state `cancel_download` changes nothing at all — it does
not update the status or the log and does not return the controller to
idle. -/
theorem C4_cancel_active_noop_counterexample :
    (start_download { initState "/Users/demo" with
        urlEntry := "https://www.youtube.com/watch?v=abc" }).is_downloading = true ∧
    (start_download { initState "/Users/demo" with
        urlEntry := "https://www.youtube.com/watch?v=abc" }).ydl = none ∧
    cancel_download (start_download { initState "/Users/demo" with
        urlEntry := "https://www.youtube.com/watch?v=abc" }) =
      start_download { initState "/Users/demo" with
        urlEntry := "https://www.youtube.com/watch?v=abc" } := by
  refine ⟨rfl, rfl, ?_⟩
  decide

/-- Claim C4 (amended): `cancel_download` is a no-op whenever no
download is active or no library handle is held — and the handle field
is never assigned, so cancelling during an active download is also a
no-op.  Only in a state with both `is_downloading` set and a handle
held does it signal the interrupt, update status and log, re-enable
start, disable cancel and clear `is_downloading`, raising no error. -/
theorem C4_cancel_behaviour (s : GuiState) :
    (s.is_downloading = false ∨ s.ydl = none → cancel_download s = s) ∧
    (s.is_downloading = true → s.ydl = some () →
      (cancel_download s).interrupts = s.interrupts + 1 ∧
      (cancel_download s).status_var = "Download cancelled" ∧
      (cancel_download s).log_lines = s.log_lines ++ ["Download cancelled by user"] ∧
      (cancel_download s).download_button = WState.normal ∧
      (cancel_download s).cancel_button = WState.disabled ∧
      (cancel_download s).is_downloading = false) := by
  constructor
  · rintro (h | h) <;> cases hb : s.is_downloading <;>
      cases hy : s.ydl <;> simp_all [cancel_download]
  · intro h hy
    simp [cancel_download, h, hy]

/-- Witness for C4's amended theorem: in a state that is downloading
and holds a library handle, cancelling resets the controller to idle
with the cancelled status. -/
theorem C4_cancel_behaviour_witness :
    (cancel_download { initState "/h" with
        is_downloading := true,
        ydl := some () }).status_var = "Download cancelled" ∧
    (cancel_download { initState "/h" with
        is_downloading := true,
        ydl := some () }).is_downloading = false := by
  have h := (C4_cancel_behaviour
    { initState "/h" with is_downloading := true, ydl := some () }).2 rfl rfl
  exact ⟨h.2.1, h.2.2.2.2.2⟩

/-- Claim C5 counterexample: on a format list whose maximum height is
3840 with 60 fps and an HDR codec signal (`vp9.2`), the code derives
the label `2K HDR 60FPS` — the `4K` threshold requires height ≥ 4000 —
so the displayed text is not the claimed `4K HDR 60FPS`. -/
theorem C5_label_3840_counterexample :
    (scanFormats [⟨"", 3840, 60, "vp9.2", "none"⟩,
        ⟨"", 0, 0, "none", "opus"⟩]).max_height = 3840 ∧
    (scanFormats [⟨"", 3840, 60, "vp9.2", "none"⟩,
        ⟨"", 0, 0, "none", "opus"⟩]).max_fps = 60 ∧
    (scanFormats [⟨"", 3840, 60, "vp9.2", "none"⟩,
        ⟨"", 0, 0, "none", "opus"⟩]).is_hdr = true ∧
    format_text_of [⟨"", 3840, 60, "vp9.2", "none"⟩,
        ⟨"", 0, 0, "none", "opus"⟩] = "🎥+🔊 Video+Audio (2K HDR 60FPS)" ∧
    format_text_of [⟨"", 3840, 60, "vp9.2", "none"⟩,
        ⟨"", 0, 0, "none", "opus"⟩] ≠ "🎥+🔊 Video+Audio (4K HDR 60FPS)" := by
  refine ⟨rfl, rfl, rfl, ?_, ?_⟩ <;> decide

/-- Claim C5 (amended): with maximum observed height 3840, maximum
frame rate 60 and an HDR codec signal the derived quality label is
`2K HDR 60FPS` (3840 falls below the ≥ 4000 threshold for `4K`), and
with maximum height 1080, no HDR signal and maximum frame rate 30 it
is `1080p 30FPS` as claimed. -/
theorem C5_label_heuristic :
    format_text_of [⟨"", 3840, 60, "vp9.2", "none"⟩,
        ⟨"", 0, 0, "none", "opus"⟩] = "🎥+🔊 Video+Audio (2K HDR 60FPS)" ∧
    (scanFormats [⟨"", 1080, 30, "avc1.640028", "none"⟩,
        ⟨"", 0, 0, "none", "mp4a.40.2"⟩]).max_height = 1080 ∧
    (scanFormats [⟨"", 1080, 30, "avc1.640028", "none"⟩,
        ⟨"", 0, 0, "none", "mp4a.40.2"⟩]).is_hdr = false ∧
    (scanFormats [⟨"", 1080, 30, "avc1.640028", "none"⟩,
        ⟨"", 0, 0, "none", "mp4a.40.2"⟩]).max_fps = 30 ∧
    format_text_of [⟨"", 1080, 30, "avc1.640028", "none"⟩,
        ⟨"", 0, 0, "none", "mp4a.40.2"⟩] = "🎥+🔊 Video+Audio (1080p 30FPS)" := by
  refine ⟨?_, rfl, ?_, rfl, ?_⟩ <;> decide

/-- Claim C7: `start_download` proceeds exactly when the stripped URL
field is non-empty and contains an allow-listed domain substring; in
that case it disables start, enables cancel, disables play, resets
progress to zero, clears the log and spawns the background task with a
progress callback; otherwise the state is unchanged except for a shown
warning — in particular no task is spawned and no library call is
made. -/
theorem C7_start_download_behaviour (s : GuiState) :
    (pyStrip s.urlEntry = "" →
      start_download s =
        { s with warnings := s.warnings ++ ["Please enter a video URL"] }) ∧
    (pyStrip s.urlEntry ≠ "" → domainAllowed (pyStrip s.urlEntry) = false →
      start_download s =
        { s with warnings := s.warnings ++ ["Please enter a supported video URL"] }) ∧
    (pyStrip s.urlEntry ≠ "" → domainAllowed (pyStrip s.urlEntry) = true →
      start_download s =
        { s with
            download_button := .disabled
            cancel_button := .normal
            play_button := .disabled
            progress_var := 0
            status_var := "Starting download..."
            log_lines := []
            is_downloading := true
            download_thread := some { url := pyStrip s.urlEntry,
                                      outputDir := s.outputVar, threads := 8 } }) := by
  refine ⟨fun h => ?_, fun h1 h2 => ?_, fun h1 h2 => ?_⟩
  · simp [start_download, h]
  · simp [start_download, h1, h2]
  · simp [start_download, h1, h2]

/-- Witness for C7 at a concrete state: a padded YouTube URL passes the
check and the transition performs exactly the documented effects. -/
theorem C7_start_download_behaviour_witness :
    start_download { initState "/Users/demo" with
        urlEntry := "  https://youtu.be/abc  " } =
      { { initState "/Users/demo" with
            urlEntry := "  https://youtu.be/abc  " } with
          download_button := .disabled
          cancel_button := .normal
          play_button := .disabled
          progress_var := 0
          status_var := "Starting download..."
          log_lines := []
          is_downloading := true
          download_thread := some { url := pyStrip "  https://youtu.be/abc  ",
                                    outputDir := joinPath "/Users/demo" "Downloads",
                                    threads := 8 } } :=
  (C7_start_download_behaviour { initState "/Users/demo" with
      urlEntry := "  https://youtu.be/abc  " }).2.2 (by decide) (by decide)

/-- Claim C8: whatever the outcome of the background download task, the
`finally` block returns the controller to idle (`is_downloading` false,
start re-enabled, cancel disabled); the play affordance is enabled and
pointed at the written file path exactly on the success branch, and is
left untouched on the failure branch. -/
theorem C8_background_completion (s : GuiState) (url output_dir : String)
    (threads : Nat) (outcome : Except String String) :
    ((download_video_gui s url output_dir threads outcome).1.is_downloading = false) ∧
    ((download_video_gui s url output_dir threads outcome).1.download_button = .normal) ∧
    ((download_video_gui s url output_dir threads outcome).1.cancel_button = .disabled) ∧
    (∀ f, outcome = .ok f →
      (download_video_gui s url output_dir threads outcome).1.play_button = .normal ∧
      (download_video_gui s url output_dir threads outcome).1.last_downloaded_file = some f) ∧
    (∀ e, outcome = .error e →
      (download_video_gui s url output_dir threads outcome).1.play_button = s.play_button ∧
      (download_video_gui s url output_dir threads outcome).1.last_downloaded_file =
        s.last_downloaded_file) := by
  cases outcome <;> simp [download_video_gui]

/-- Witness for C8 at a concrete successful completion: the controller
is idle and the play affordance points at the written file. -/
theorem C8_background_completion_witness :
    (download_video_gui (initState "/h") "https://youtu.be/v" "/d" 8
        (.ok "/d/video.mp4")).1.is_downloading = false ∧
    (download_video_gui (initState "/h") "https://youtu.be/v" "/d" 8
        (.ok "/d/video.mp4")).1.play_button = .normal ∧
    (download_video_gui (initState "/h") "https://youtu.be/v" "/d" 8
        (.ok "/d/video.mp4")).1.last_downloaded_file = some "/d/video.mp4" := by
  have h := C8_background_completion (initState "/h") "https://youtu.be/v" "/d" 8
    (.ok "/d/video.mp4")
  exact ⟨h.1, (h.2.2.2.1 "/d/video.mp4" rfl).1, (h.2.2.2.1 "/d/video.mp4" rfl).2⟩

/-- Claim C9: running the packaging trace on an empty filesystem
succeeds and produces the documented bundle layout — the
`Contents/MacOS` and `Contents/Resources` directories, an executable
launcher script (mode 755), an `Info.plist` whose property list holds
bundle identifier `com.youtubedownloader.app`, version `1.0` and
executable name `launcher`, and the icon file at
`Contents/Resources/AppIcon.icns` — and running the same trace a second
time over the existing bundle raises no error and leaves the layout
unchanged (directory creation uses `exist_ok=True`). -/
theorem C9_bundle_layout :
    runEffects emptyFS demoOps = .ok demoFS ∧
    demoFS.dirs.contains
      "/Users/demo/Desktop/YouTube Downloader.app/Contents/MacOS" = true ∧
    demoFS.dirs.contains
      "/Users/demo/Desktop/YouTube Downloader.app/Contents/Resources" = true ∧
    assocFind demoFS.files
      "/Users/demo/Desktop/YouTube Downloader.app/Contents/MacOS/launcher" =
      some (.text (launcherScript "/repo")) ∧
    assocFind demoFS.modes
      "/Users/demo/Desktop/YouTube Downloader.app/Contents/MacOS/launcher" =
      some 493 ∧
    assocFind (plistAt demoFS
      "/Users/demo/Desktop/YouTube Downloader.app/Contents/Info.plist")
      "CFBundleIdentifier" = some (.s "com.youtubedownloader.app") ∧
    assocFind (plistAt demoFS
      "/Users/demo/Desktop/YouTube Downloader.app/Contents/Info.plist")
      "CFBundleVersion" = some (.s "1.0") ∧
    assocFind (plistAt demoFS
      "/Users/demo/Desktop/YouTube Downloader.app/Contents/Info.plist")
      "CFBundleExecutable" = some (.s "launcher") ∧
    assocFind demoFS.files
      "/Users/demo/Desktop/YouTube Downloader.app/Contents/Resources/AppIcon.icns" =
      some .binary ∧
    runEffects demoFS demoOps = .ok demoFS := by
  refine ⟨?_, ?_, ?_, ?_, ?_, ?_, ?_, ?_, ?_, ?_⟩ <;> rfl

/-- Claim C10: any background task spawned by the GUI start action uses
the fixed thread count 8, and the options it passes to the extraction
library carry the fixed format expression `bestvideo+bestaudio/best`
and fragment concurrency 8 — no quality tier is configurable from the
GUI. -/
theorem C10_gui_fixed_options (s : GuiState) (t : DownloadTask) :
    (start_download s).download_thread = some t →
    s.download_thread ≠ some t →
    t.threads = 8 ∧
    (buildGuiOpts t.outputDir t.threads).format = "bestvideo+bestaudio/best" ∧
    (buildGuiOpts t.outputDir t.threads).concurrent_fragment_downloads = 8 ∧
    ∀ (s2 : GuiState) (outcome : Except String String),
      (download_video_gui s2 t.url t.outputDir t.threads outcome).2 =
        buildGuiOpts t.outputDir 8 := by
  intro h1 h2
  by_cases he : pyStrip s.urlEntry = ""
  · have hx : (start_download s).download_thread = s.download_thread := by
      simp [start_download, he]
    exact absurd (hx ▸ h1) h2
  · by_cases hd : domainAllowed (pyStrip s.urlEntry) = true
    · have hx : (start_download s).download_thread =
        some { url := pyStrip s.urlEntry, outputDir := s.outputVar, threads := 8 } := by
        simp [start_download, he, hd]
      rw [hx] at h1
      obtain rfl := Option.some.inj h1
      exact ⟨rfl, rfl, rfl, fun s2 outcome => rfl⟩
    · have hx : (start_download s).download_thread = s.download_thread := by
        simp [start_download, he, hd]
      exact absurd (hx ▸ h1) h2

/-- Witness for C10: the task spawned from a fresh state with a valid
URL carries thread count 8 and the fixed options. -/
theorem C10_gui_fixed_options_witness :
    (DownloadTask.threads {
        url := "https://youtu.be/abc",
        outputDir := joinPath "/Users/demo" "Downloads", threads := 8 }) = 8 ∧
    (buildGuiOpts (joinPath "/Users/demo" "Downloads") 8).format =
      "bestvideo+bestaudio/best" ∧
    (buildGuiOpts (joinPath "/Users/demo" "Downloads") 8).concurrent_fragment_downloads
      = 8 := by
  have h := C10_gui_fixed_options
    { initState "/Users/demo" with urlEntry := "https://youtu.be/abc" }
    { url := "https://youtu.be/abc",
      outputDir := joinPath "/Users/demo" "Downloads", threads := 8 }
    (by decide) (by decide)
  exact ⟨h.1, h.2.1, h.2.2.1⟩
